import Mathlib

/-!
Shallow embedding of `src/cpython_source_code_changes/Python/pycore_backoff.c`.

The translation unit is a sequence of top-level items: comments, four
`#include` directives, and seven global `int` variable definitions.  Each
global is initialized either from a named configuration constant defined in
an included header (a preprocessor constant such as
`JUMP_BACKWARD_INITIAL_VALUE`) or from an integer literal (`333`).  The file
defines no function, no struct, no typedef, and contains no executable
statement, so the only state change it contributes to the program is the
static initialization of its seven globals.
-/

namespace PycoreBackoff

/-- The C type of a global variable definition. `int` is the only type used
in this file; other types are carried by name so that the claim that every
global is an `int` is not vacuous. -/
inductive CType where
  | intType
  | otherType (name : String)
deriving DecidableEq, Repr

/-- The initializer expression of a global definition: either a reference to
a named compile-time configuration constant from an included header, or an
integer literal written directly in the .c file. -/
inductive Initializer where
  | namedConstant (configName : String)
  | intLiteral (value : Int)
deriving DecidableEq, Repr

/-- Linkage of a global definition: `exported` for an ordinary definition
with external linkage, `internalStatic` for one declared `static`. -/
inductive Linkage where
  | exported
  | internalStatic
deriving DecidableEq, Repr

/-- A global variable definition: name, linkage, C type, initializer. -/
structure GlobalVarDef where
  name : String
  linkage : Linkage
  ty : CType
  init : Initializer
deriving DecidableEq, Repr

/-- A statement of a C function body, were any function defined in the
file.  Assignment to a named global is the only state-changing form the
surrounding claims need; none occurs in this file. -/
inductive CStmt where
  | assign (lhs : String) (value : Int)
  | skip
deriving DecidableEq, Repr

/-- A C function definition: name and body. None occurs in this file. -/
structure CFunctionDef where
  name : String
  body : List CStmt
deriving DecidableEq, Repr

/-- A top-level item of the translation unit. -/
inductive TopLevelItem where
  | includeDirective (header : String)
  | commentLine (text : String)
  | globalVar (d : GlobalVarDef)
  | functionDef (f : CFunctionDef)
  | structDef (name : String)
  | typedefDef (name : String)
deriving DecidableEq, Repr

/-- Line 9: `int _Py_JumpBackwardInitialValue = JUMP_BACKWARD_INITIAL_VALUE;` -/
def jumpBackwardInitialValueDef : GlobalVarDef :=
  ⟨"_Py_JumpBackwardInitialValue", .exported, .intType,
    .namedConstant "JUMP_BACKWARD_INITIAL_VALUE"⟩

/-- Line 10: `int _Py_JumpBackwardInitialBackoff = JUMP_BACKWARD_INITIAL_BACKOFF;` -/
def jumpBackwardInitialBackoffDef : GlobalVarDef :=
  ⟨"_Py_JumpBackwardInitialBackoff", .exported, .intType,
    .namedConstant "JUMP_BACKWARD_INITIAL_BACKOFF"⟩

/-- Line 12: `int _Py_SideExitInitialValue = SIDE_EXIT_INITIAL_VALUE;` -/
def sideExitInitialValueDef : GlobalVarDef :=
  ⟨"_Py_SideExitInitialValue", .exported, .intType,
    .namedConstant "SIDE_EXIT_INITIAL_VALUE"⟩

/-- Line 13: `int _Py_SideExitInitialBackoff = SIDE_EXIT_INITIAL_BACKOFF;` -/
def sideExitInitialBackoffDef : GlobalVarDef :=
  ⟨"_Py_SideExitInitialBackoff", .exported, .intType,
    .namedConstant "SIDE_EXIT_INITIAL_BACKOFF"⟩

/-- Line 15: `int _Py_AdaptiveCoolDownValue = ADAPTIVE_COOLDOWN_VALUE;` -/
def adaptiveCoolDownValueDef : GlobalVarDef :=
  ⟨"_Py_AdaptiveCoolDownValue", .exported, .intType,
    .namedConstant "ADAPTIVE_COOLDOWN_VALUE"⟩

/-- Line 16: `int _Py_MaxChainDepth = MAX_CHAIN_DEPTH;` -/
def maxChainDepthDef : GlobalVarDef :=
  ⟨"_Py_MaxChainDepth", .exported, .intType,
    .namedConstant "MAX_CHAIN_DEPTH"⟩

/-- Line 18: `int _Py_ConfidenceLowerLimit = 333;` -/
def confidenceLowerLimitDef : GlobalVarDef :=
  ⟨"_Py_ConfidenceLowerLimit", .exported, .intType, .intLiteral 333⟩

/-- The whole translation unit `Python/pycore_backoff.c`, item by item in
source order (comment texts abbreviated). -/
def pycoreBackoffItems : List TopLevelItem :=
  [ .commentLine "Ashok starts here (this is a new file)",
    .includeDirective "Python.h",
    .includeDirective "pycore_backoff.h",
    .includeDirective "pycore_optimizer.h",
    .includeDirective "pycore_code.h",
    .commentLine "#include optimizer.c (commented out)",
    .globalVar jumpBackwardInitialValueDef,
    .globalVar jumpBackwardInitialBackoffDef,
    .globalVar sideExitInitialValueDef,
    .globalVar sideExitInitialBackoffDef,
    .globalVar adaptiveCoolDownValueDef,
    .globalVar maxChainDepthDef,
    .globalVar confidenceLowerLimitDef,
    .commentLine "build note: add Python/pycore_backoff.o around line 480 of Makefile.pre.in",
    .commentLine "Ashok until here" ]

/-- The global variable definitions of a translation unit, in order. -/
def globalVarsOf (items : List TopLevelItem) : List GlobalVarDef :=
  items.filterMap (fun it => match it with
    | .globalVar d => some d
    | _ => none)

/-- The function definitions of a translation unit, in order. -/
def functionDefsOf (items : List TopLevelItem) : List CFunctionDef :=
  items.filterMap (fun it => match it with
    | .functionDef f => some f
    | _ => none)

/-- The seven global definitions of `pycore_backoff.c`, in source order. -/
def globalDefs : List GlobalVarDef := globalVarsOf pycoreBackoffItems

/-- Program state: the value of each named global. -/
abbrev Env := String → Int

/-- Value of an initializer, given the compile-time values of the named
configuration constants of the included headers. -/
def evalInit (configEnv : String → Int) : Initializer → Int
  | .namedConstant n => configEnv n
  | .intLiteral v => v

/-- Static initialization of a translation unit: each global it defines is
set to the value of its initializer; every other state component is kept. -/
def staticInit (configEnv : String → Int) (defs : List GlobalVarDef)
    (env : Env) : Env :=
  fun n =>
    match defs.find? (fun d => d.name == n) with
    | some d => evalInit configEnv d.init
    | none => env n

/-- Execution of one statement. -/
def execStmt (e : Env) : CStmt → Env
  | .assign lhs v => fun n => if n = lhs then v else e n
  | .skip => e

/-- One step of the program fragment contributed by a translation unit:
the execution of one statement drawn from the body of one of its function
definitions. -/
inductive ProgStep (items : List TopLevelItem) : Env → Env → Prop where
  | ofStmt (e : Env) (f : CFunctionDef) (hf : f ∈ functionDefsOf items)
      (st : CStmt) (hs : st ∈ f.body) :
      ProgStep items e (execStmt e st)

/-- Reachability under the operations the translation unit contributes. -/
def Reachable (items : List TopLevelItem) : Env → Env → Prop :=
  Relation.ReflTransGen (ProgStep items)

/-- A plain item: an include directive, a comment, or a global variable
definition — nothing that defines a function, a data structure, or any
executable logic. -/
def isPlainItem : TopLevelItem → Bool
  | .includeDirective _ => true
  | .commentLine _ => true
  | .globalVar _ => true
  | .functionDef _ => false
  | .structDef _ => false
  | .typedefDef _ => false

/-- The initializer attached to the named global, if the file defines it. -/
def initOf (n : String) : Option Initializer :=
  (globalDefs.find? (fun d => d.name == n)).map GlobalVarDef.init

/-- Whether the file defines a global of C type `int` with the given name. -/
def hasIntGlobal (n : String) : Bool :=
  globalDefs.any (fun d => d.name == n && d.ty == CType.intType)

theorem globalDefs_eq :
    globalDefs =
      [ jumpBackwardInitialValueDef, jumpBackwardInitialBackoffDef,
        sideExitInitialValueDef, sideExitInitialBackoffDef,
        adaptiveCoolDownValueDef, maxChainDepthDef,
        confidenceLowerLimitDef ] := rfl

theorem functionDefsOf_empty : functionDefsOf pycoreBackoffItems = [] := rfl

theorem staticInit_eval (configEnv : String → Int) (env : Env)
    (d : GlobalVarDef) (hd : d ∈ globalDefs) :
    staticInit configEnv globalDefs env d.name = evalInit configEnv d.init := by
  rw [globalDefs_eq] at hd
  fin_cases hd <;> rfl

/-- A configuration environment used as a concrete build for witnesses. -/
def zeroEnv : Env := fun _ => 0

/-- A second concrete pre-state, distinct from `zeroEnv`, for witnesses. -/
def seventeenEnv : Env := fun _ => 17

/-- C1: the translation unit contains no algorithm, protocol, state machine
or concurrency logic: every item is an include directive, a comment, or a
plain initialized integer global definition; it defines no function (so it
contributes no statement, data structure, or state-transition rule). -/
theorem only_plain_int_globals :
    pycoreBackoffItems.all isPlainItem = true
    ∧ functionDefsOf pycoreBackoffItems = []
    ∧ (globalVarsOf pycoreBackoffItems).all
        (fun d => d.ty == CType.intType) = true := by decide

/-- C2: the file declares each of the listed tunables — the four initial
backoff counters, the cooldown threshold, the confidence limit and the max
trace-chain depth — as a global of C type `int`. -/
theorem tunables_declared_as_int :
    hasIntGlobal "_Py_JumpBackwardInitialValue" = true
    ∧ hasIntGlobal "_Py_JumpBackwardInitialBackoff" = true
    ∧ hasIntGlobal "_Py_SideExitInitialValue" = true
    ∧ hasIntGlobal "_Py_SideExitInitialBackoff" = true
    ∧ hasIntGlobal "_Py_AdaptiveCoolDownValue" = true
    ∧ hasIntGlobal "_Py_ConfidenceLowerLimit" = true
    ∧ hasIntGlobal "_Py_MaxChainDepth" = true := by decide

/-- C3 counterexample: the number of distinct integer globals defined in
the source file is not five. -/
theorem not_five_constants :
    ¬ (globalDefs.map GlobalVarDef.name).dedup.length = 5 := by decide

/-- C3 amended: the file defines exactly seven integer globals, with seven
distinct names. -/
theorem seven_distinct_constants :
    globalDefs.length = 7
    ∧ (globalDefs.map GlobalVarDef.name).Nodup
    ∧ globalDefs.all (fun d => d.ty == CType.intType) = true := by
  refine ⟨rfl, by decide, rfl⟩

/-- C4: every global the file defines is a constant: in any state reachable
from the statically initialized state via operations contributed by this
translation unit, each of the seven globals still holds the value of its
initializer. -/
theorem globals_never_change (configEnv : String → Int) (env s : Env)
    (h : Reachable pycoreBackoffItems (staticInit configEnv globalDefs env) s)
    (d : GlobalVarDef) (hd : d ∈ globalDefs) :
    s d.name = evalInit configEnv d.init := by
  have hstep : ∀ a b : Env, ¬ ProgStep pycoreBackoffItems a b := by
    intro a b hab
    cases hab with
    | ofStmt f hf st hs =>
        rw [functionDefsOf_empty] at hf
        exact absurd hf (List.not_mem_nil f)
  have hs : s = staticInit configEnv globalDefs env := by
    induction h with
    | refl => rfl
    | tail _ hbc _ => exact absurd hbc (hstep _ _)
  rw [hs]
  exact staticInit_eval configEnv env d hd

/-- C4 witness: in the initialized state of a concrete build,
`_Py_ConfidenceLowerLimit` holds its initializer 333. -/
theorem globals_never_change_witness :
    staticInit zeroEnv globalDefs zeroEnv "_Py_ConfidenceLowerLimit" = 333 :=
  globals_never_change zeroEnv zeroEnv
    (staticInit zeroEnv globalDefs zeroEnv) Relation.ReflTransGen.refl
    confidenceLowerLimitDef (by decide)

/-- C5: each macro-derived global is initialized from exactly the named
configuration constant the claim lists: its name with the `_Py_` prefix
dropped and written in upper snake case. -/
theorem initializers_from_config_names :
    initOf "_Py_JumpBackwardInitialValue"
      = some (.namedConstant "JUMP_BACKWARD_INITIAL_VALUE")
    ∧ initOf "_Py_JumpBackwardInitialBackoff"
      = some (.namedConstant "JUMP_BACKWARD_INITIAL_BACKOFF")
    ∧ initOf "_Py_SideExitInitialValue"
      = some (.namedConstant "SIDE_EXIT_INITIAL_VALUE")
    ∧ initOf "_Py_SideExitInitialBackoff"
      = some (.namedConstant "SIDE_EXIT_INITIAL_BACKOFF")
    ∧ initOf "_Py_AdaptiveCoolDownValue"
      = some (.namedConstant "ADAPTIVE_COOLDOWN_VALUE")
    ∧ initOf "_Py_MaxChainDepth"
      = some (.namedConstant "MAX_CHAIN_DEPTH") := by decide

/-- C6: `_Py_ConfidenceLowerLimit` is initialized to the integer literal
333, and it is the only global of the file whose initializer is a literal
rather than a reference to a named header constant. -/
theorem confidence_limit_hardcoded :
    initOf "_Py_ConfidenceLowerLimit" = some (.intLiteral 333)
    ∧ globalDefs.all (fun d =>
        d.name == "_Py_ConfidenceLowerLimit"
        || (match d.init with
            | .namedConstant _ => true
            | .intLiteral _ => false)) = true := by decide

/-- C7: static initialization of this translation unit modifies only the
seven globals it defines: every other state component keeps the value it
had before initialization. -/
theorem init_frame (configEnv : String → Int) (env : Env) (n : String)
    (h : n ∉ globalDefs.map GlobalVarDef.name) :
    staticInit configEnv globalDefs env n = env n := by
  have hn : globalDefs.find? (fun d => d.name == n) = none := by
    rw [List.find?_eq_none]
    intro d hd hdn
    exact h (List.mem_map.mpr ⟨d, hd, by simpa using hdn⟩)
  unfold staticInit
  rw [hn]

/-- C7 witness: a state component the file does not define, here a name of
the surrounding interpreter, is untouched by the initialization. -/
theorem init_frame_witness :
    staticInit zeroEnv globalDefs seventeenEnv "interp_state"
      = seventeenEnv "interp_state" :=
  init_frame zeroEnv seventeenEnv "interp_state" (by decide)

/-- C8: every global the file defines has external linkage: none is
declared `static`, so the surrounding interpreter can reference each by
name. -/
theorem all_globals_exported :
    globalDefs.all (fun d => d.linkage == Linkage.exported) = true := by
  decide

/-- C9: initialization is deterministic and input-independent: for any two
runs (any two pre-states) of the same build, each defined global holds the
same value after static initialization, since every initializer is a
compile-time constant expression. -/
theorem init_deterministic (configEnv : String → Int) (env1 env2 : Env)
    (d : GlobalVarDef) (hd : d ∈ globalDefs) :
    staticInit configEnv globalDefs env1 d.name
      = staticInit configEnv globalDefs env2 d.name := by
  rw [staticInit_eval configEnv env1 d hd, staticInit_eval configEnv env2 d hd]

/-- C9 witness: two runs with different pre-states agree on
`_Py_MaxChainDepth` after initialization. -/
theorem init_deterministic_witness :
    staticInit zeroEnv globalDefs zeroEnv "_Py_MaxChainDepth"
      = staticInit zeroEnv globalDefs seventeenEnv "_Py_MaxChainDepth" :=
  init_deterministic zeroEnv zeroEnv seventeenEnv maxChainDepthDef (by decide)

end PycoreBackoff
